import Mathlib

/-! ## Verification of the hue bridge-discovery and pairing core

A shallow embedding of the discovery, cache and pairing subsystem of the
`gbbr/hue` Go library (files `discover.go`, `bridge.go`, `lights.go`),
with theorems settling the specification's testable properties.

Network and file-system effects are made explicit: every function that in
the source performs I/O takes the outcome of that I/O as a parameter, and
the discovery pipeline additionally records the network operations it
performs, so that "no network I/O happens" is a provable statement.
-/

set_option autoImplicit false

namespace Hue

/-- Go `strings` helper: does the character list starting at the head of the
second argument begin with the first argument? -/
def strStartsWith : List Char → List Char → Bool
  | [], _ => true
  | _ :: _, [] => false
  | p :: ps, c :: cs => p == c && strStartsWith ps cs

/-- Scan helper for `goContains`: does `pat` occur at some position of `l`? -/
def goContainsAux (pat : List Char) : List Char → Bool
  | [] => strStartsWith pat []
  | c :: cs => strStartsWith pat (c :: cs) || goContainsAux pat cs

/-- Embedding of Go `strings.Contains(s, sub)`. -/
def goContains (s sub : String) : Bool :=
  goContainsAux sub.data s.data

/-- Number of consecutive `'/'` characters at the end of a string; the spec's
"ends with exactly one trailing slash" is `trailingSlashes s = 1`. -/
def trailingSlashes (s : String) : Nat :=
  (s.data.reverse.takeWhile (fun c => c == '/')).length

-- `bridgeID` from discover.go: `ID string; IP string` (JSON keys `id`,
-- `internalipaddress`).
structure bridgeID where
  ID : String
  IP : String
  deriving Repr, DecidableEq

-- `Bridge` from bridge.go embeds `bridgeID` and adds the username credential.
structure Bridge extends bridgeID where
  username : String
  deriving Repr, DecidableEq

/-! ## A small JSON value model

Used for the cache file contents (`encoding/json` marshalling of the
`cachedBridge` record) and for the request bodies built by the lights API. -/

/-- JSON values, as produced and consumed by Go's `encoding/json`. -/
inductive JVal where
  | str (s : String)
  | num (q : ℚ)
  | jbool (b : Bool)
  | arr (vs : List JVal)
  | obj (fields : List (String × JVal))

/-- First value stored under key `key`, the lookup the decoder performs on a
JSON object's field list. -/
def lookupField : List (String × JVal) → String → Option JVal
  | [], _ => none
  | (k, v) :: rest, key => if k = key then some v else lookupField rest key

/-! ## Cache store (discover.go: `cacheFile`, `cachedBridge`, `toCache`,
`fromCache`)

The cache file under the user's home directory is modelled by `CacheFile`:
it is missing, unreadable, or holds a JSON value.  Home-directory
resolution and file writes are fallible; their outcomes are Boolean
parameters. -/

-- `cachedBridge` from discover.go: `struct{ ID, IP, Username string }`.
structure cachedBridge where
  ID : String
  IP : String
  Username : String
  deriving Repr, DecidableEq

/-- State of the on-disk cache file. `missing` is a read error satisfying
`os.IsNotExist`; `readErr` is any other read failure. -/
inductive CacheFile where
  | missing
  | readErr
  | data (v : JVal)

/-- `json.Marshal` of a `cachedBridge` (struct fields in declaration order). -/
def encodeCached (c : cachedBridge) : JVal :=
  .obj [("ID", .str c.ID), ("IP", .str c.IP), ("Username", .str c.Username)]

/-- Decode one string-typed struct field, as `json.Unmarshal` does: a missing
key leaves the zero value `""`, a key bound to a non-string value is a type
error (decode failure). -/
def getStrField (fields : List (String × JVal)) (key : String) : Option String :=
  match lookupField fields key with
  | none => some ""
  | some (.str s) => some s
  | some _ => none

/-- `json.Unmarshal` of the cache file contents into a `cachedBridge`:
fails unless the value is a JSON object whose relevant fields are strings. -/
def decodeCached : JVal → Option cachedBridge
  | .obj fields =>
    match getStrField fields "ID", getStrField fields "IP",
          getStrField fields "Username" with
    | some id, some ip, some un => some ⟨id, ip, un⟩
    | _, _, _ => none
  | _ => none

/-- `toCache` from discover.go: best-effort write of the marshalled record;
home-directory or write failure leaves the file untouched (and is only
logged). -/
def toCache (homedirOK writeOK : Bool) (b : Bridge) (file : CacheFile) :
    CacheFile :=
  if homedirOK && writeOK then
    .data (encodeCached ⟨b.ID, b.IP, b.username⟩)
  else file

/-- `fromCache` from discover.go: returns the cached bridge or `none`; a
missing file, any other read failure, a decode failure, or home-directory
resolution failure all yield `none`. -/
def fromCache (homedirOK : Bool) (file : CacheFile) : Option Bridge :=
  if homedirOK then
    match file with
    | .missing => none
    | .readErr => none
    | .data v =>
      match decodeCached v with
      | none => none
      | some c => some { ID := c.ID, IP := c.IP, username := c.Username }
  else none

/-! ## Discovery (discover.go: `Discover`, `discover`, `discoverLocal`,
`tryLocation`, `discoverRemote`)

Each network interaction's outcome is a parameter; the pipeline also
returns the list of network operations it performed, in order. -/

/-- Errors arising in the discovery pipeline. `notFound` is `ErrNotFound`;
the other constructors stand for the distinct error values produced by the
HTTP client and the XML/JSON decoders. -/
inductive DErr where
  | notFound
  | httpError
  | decodeError
  deriving Repr, DecidableEq

/-- Network operations performed by discovery, in order of execution. -/
inductive NetOp where
  | udpSearch
  | httpGet
  | remoteGet
  deriving Repr, DecidableEq

/-- The decoded XML device description fetched by `tryLocation` (fields
`URLBase`, `device/modelDescription`, `device/modelName`,
`device/serialNumber`). -/
structure DeviceDescription where
  URLBase : String
  modelDescription : String
  modelName : String
  serialNumber : String
  deriving Repr, DecidableEq

/-- `tryLocation` from discover.go, applied to the outcome of fetching and
XML-decoding the device description at the candidate URL: a fetch or decode
error is returned as-is; a decoded body is accepted only if `URLBase` is
non-empty and one of the model strings contains `"Philips hue"`, in which
case the result is `{ID := serialNumber, IP := URLBase}`. -/
def tryLocation (fetch : Except DErr DeviceDescription) :
    Except DErr bridgeID :=
  match fetch with
  | .error e => .error e
  | .ok body =>
    if body.URLBase = "" ||
        !(goContains body.modelDescription "Philips hue" ||
          goContains body.modelName "Philips hue") then
      .error .notFound
    else
      .ok { ID := body.serialNumber, IP := body.URLBase }

/-- Outcome of running a Go function that may not return: it either
returns a value or crashes (a runtime nil-pointer dereference, which
unwinds the whole call and never yields a result to the caller). -/
inductive GoOutcome (α : Type) where
  | returns (v : α)
  | crashes

/-- `discoverRemote` from discover.go, applied to the outcome of the HTTP
GET against the nupnp endpoint (outer layer: the transport) and of the
JSON decoding of its body into `[]bridgeID` (inner layer).  The source
registers `defer resp.Body.Close()` *before* checking the GET's error, so
when the GET fails — `resp` is nil — evaluating `resp.Body` in the defer
statement crashes with a nil-pointer dereference and the function never
returns.  With a response in hand: a decode error is returned as-is, an
empty array is `ErrNotFound`, and otherwise the first element is returned
with its IP rewritten to `"http://" ++ ip ++ "/"`. -/
def discoverRemote (resp : Except DErr (Except DErr (List bridgeID))) :
    GoOutcome (Except DErr bridgeID) :=
  match resp with
  | .error _ => .crashes
  | .ok (.error e) => .returns (.error e)
  | .ok (.ok []) => .returns (.error .notFound)
  | .ok (.ok (b :: _)) =>
    .returns (.ok { b with IP := "http://" ++ b.IP ++ "/" })

/-- One datagram read inside `discoverLocal`'s receive loop: the status-line
read fails (deadline/closed socket, which breaks the loop), the MIME header
is malformed or lacks a `Location` (skipped), or a `Location` header is
present and its description fetch has the given outcome. -/
inductive SSDPResp where
  | readErr
  | noHeader
  | noLocation
  | loc (fetch : Except DErr DeviceDescription)

/-- The receive loop of `discoverLocal`: responses are consumed in order;
the first location validated by `tryLocation` is returned immediately, bad
candidates are skipped, a failed line read ends the loop with `ErrNotFound`.
Each `Location` fetch is an `httpGet` network operation. -/
def discoverLocalGo : List SSDPResp → Except DErr bridgeID × List NetOp
  | [] => (.error .notFound, [])
  | .readErr :: _ => (.error .notFound, [])
  | .noHeader :: rest => discoverLocalGo rest
  | .noLocation :: rest => discoverLocalGo rest
  | .loc fetch :: rest =>
    match tryLocation fetch with
    | .ok b => (.ok b, [.httpGet])
    | .error _ =>
      ((discoverLocalGo rest).1, .httpGet :: (discoverLocalGo rest).2)

/-- `discoverLocal` from discover.go: sends the multicast search datagram
(`udpSearch`) and runs the receive loop over the responses that arrive
before the deadline. -/
def discoverLocal (resps : List SSDPResp) :
    Except DErr bridgeID × List NetOp :=
  ((discoverLocalGo resps).1, .udpSearch :: (discoverLocalGo resps).2)

/-- `discover` from discover.go: local discovery first; on its failure, the
remote API (`remoteGet`); if that returns an error, `ErrNotFound`.  A crash
inside `discoverRemote` propagates: `discover` never returns either. -/
def discover (resps : List SSDPResp)
    (remote : Except DErr (Except DErr (List bridgeID))) :
    GoOutcome (Except DErr bridgeID) × List NetOp :=
  match discoverLocal resps with
  | (.ok b, ops) => (.returns (.ok b), ops)
  | (.error _, ops) =>
    match discoverRemote remote with
    | .crashes => (.crashes, ops ++ [.remoteGet])
    | .returns (.ok b) => (.returns (.ok b), ops ++ [.remoteGet])
    | .returns (.error _) => (.returns (.error .notFound), ops ++ [.remoteGet])

/-- The environment a `Discover` call runs in: home-directory resolution,
the cache file, the SSDP responses the local search would receive, and the
remote endpoint's transport and decode outcome. -/
structure Env where
  homedirOK : Bool
  cache : CacheFile
  ssdp : List SSDPResp
  remote : Except DErr (Except DErr (List bridgeID))

/-- `Discover` from discover.go: return the cached bridge if there is one
(performing no network operation), otherwise run `discover` and wrap the
result in an unpaired `Bridge`.  A crash in the pipeline propagates. -/
def Discover (env : Env) : GoOutcome (Except DErr Bridge) × List NetOp :=
  match fromCache env.homedirOK env.cache with
  | some b => (.returns (.ok b), [])
  | none =>
    match discover env.ssdp env.remote with
    | (.returns (.ok bid), ops) =>
      (.returns (.ok { tobridgeID := bid, username := "" }), ops)
    | (.returns (.error e), ops) => (.returns (.error e), ops)
    | (.crashes, ops) => (.crashes, ops)

/-! ## Pairing (bridge.go: `pairAs`, `maxAppNameLength`,
`maxDeviceNameLength`) -/

-- Constants from bridge.go (vendor-mandated `devicetype` limits).
def maxAppNameLength : Nat := 20

def maxDeviceNameLength : Nat := 19

/-- Go string slicing `s[:n]` (the string is modelled as its character
sequence). -/
def strTake (s : String) (n : Nat) : String :=
  ⟨s.data.take n⟩

/-- The `appName` actually used by `pairAs`: truncated to
`maxAppNameLength` when longer. -/
def truncatedAppName (appName : String) : String :=
  if appName.length > maxAppNameLength then strTake appName maxAppNameLength
  else appName

/-- The `deviceName` actually used by `pairAs`: truncated to
`maxDeviceNameLength` when longer. -/
def truncatedDeviceName (deviceName : String) : String :=
  if deviceName.length > maxDeviceNameLength then
    strTake deviceName maxDeviceNameLength
  else deviceName

/-- The `devicetype` value sent in the pairing request body:
`appName#GOOS-hostname`, with both labels length-capped. -/
def devicetype (appName goos host : String) : String :=
  truncatedAppName appName ++ "#" ++ truncatedDeviceName (goos ++ "-" ++ host)

/-- Errors `pairAs` can return: hostname lookup failure, a failed HTTP call,
a JSON decode failure, or a bad response — the latter echoing the decoded
response for diagnostics, as `fmt.Errorf("bad response: %v", resp)` does. -/
inductive PairErr where
  | hostErr
  | callErr (e : DErr)
  | decodeErr
  | badResponse (resp : List String)

/-- `pairAs` from bridge.go. The decoded response array is modelled by the
list of its elements' `Success.Username` fields; `call` is the outcome of
the POST to the base API endpoint as a function of the request's
`devicetype` value. On success the username is set on the bridge and the
bridge is written to the cache before returning. -/
def pairAs (b : Bridge) (file : CacheFile) (homedirOK writeOK : Bool)
    (host : Except Unit String) (goos : String) (appName : String)
    (call : String → Except DErr (List String)) :
    Except PairErr (Bridge × CacheFile) :=
  match host with
  | .error _ => .error .hostErr
  | .ok h =>
    match call (devicetype appName goos h) with
    | .error e => .error (.callErr e)
    | .ok resp =>
      match resp with
      | [] => .error (.badResponse [])
      | u :: rest =>
        if u = "" then .error (.badResponse (u :: rest))
        else
          .ok ({ b with username := u },
               toCache homedirOK writeOK { b with username := u } file)

/-! ## Light state bodies (lights.go: `State`, `Light.Set`, `Light.Off`)

`Light.Set` marshals a `State` value with `encoding/json`; every field
carries `omitempty`, so a field holding its zero value is omitted from the
body.  `Light.Off` sends the explicit map `{"on": false}`. -/

/-- `State` from lights.go (the struct sent by `Light.Set`). Go numeric
fields are modelled as `Nat`/`Int`/`ℚ`; the two pointer-to-array fields as
`Option` pairs. -/
structure State where
  On : Bool
  Brightness : Nat
  Hue : Nat
  Saturation : Nat
  XY : Option (ℚ × ℚ)
  Ct : ℚ
  Alert : String
  Effect : String
  TransitionTime : Nat
  BriInc : Int
  SatInc : Int
  HueInc : Int
  CtInc : Int
  XYInc : Option (ℚ × ℚ)

/-- One struct field under `omitempty`: omitted exactly when `omit` holds
(the field equals its zero value). -/
def jsonField (omitted : Prop) [Decidable omitted] (k : String) (v : JVal) :
    List (String × JVal) :=
  if omitted then [] else [(k, v)]

/-- One pointer-to-`[2]float64` field under `omitempty`: omitted exactly
when the pointer is nil. -/
def jsonOptPair (k : String) (o : Option (ℚ × ℚ)) : List (String × JVal) :=
  match o with
  | none => []
  | some (x, y) => [(k, .arr [.num x, .num y])]

/-- `json.Marshal` of a `State` value: the object's field list, in struct
declaration order, honouring every field's `omitempty` tag.  This is the
request body sent by `Light.Set`. -/
def setBody (s : State) : List (String × JVal) :=
  jsonField (s.On = false) "on" (.jbool s.On) ++
  jsonField (s.Brightness = 0) "bri" (.num s.Brightness) ++
  jsonField (s.Hue = 0) "hue" (.num s.Hue) ++
  jsonField (s.Saturation = 0) "sat" (.num s.Saturation) ++
  jsonOptPair "xy" s.XY ++
  jsonField (s.Ct = 0) "ct" (.num s.Ct) ++
  jsonField (s.Alert = "") "alert" (.str s.Alert) ++
  jsonField (s.Effect = "") "effect" (.str s.Effect) ++
  jsonField (s.TransitionTime = 0) "transitiontime" (.num s.TransitionTime) ++
  jsonField (s.BriInc = 0) "bri_inc" (.num s.BriInc) ++
  jsonField (s.SatInc = 0) "sat_inc" (.num s.SatInc) ++
  jsonField (s.HueInc = 0) "hue_inc" (.num s.HueInc) ++
  jsonField (s.CtInc = 0) "ct_inc" (.num s.CtInc) ++
  jsonOptPair "xy_inc" s.XYInc

/-- The request body sent by `Light.Off`: the map `{"on": false}`. -/
def offBody : List (String × JVal) := [("on", .jbool false)]

/-- The pairing-call outcome used to instantiate `pairing_response_handling`
at a concrete input. -/
def pairCallStub : String → Except DErr (List String) :=
  fun _ => .ok ["new-user-token"]

/-! ## Theorems -/

/-- C4: `tryLocation` accepts a fetched device description exactly when
`URLBase` is non-empty and one of `modelDescription`, `modelName` contains
`"Philips hue"`, in which case it yields `{id := serialNumber,
address := URLBase}`; a rejected body yields `ErrNotFound` and a fetch or
XML-decode error is returned as an error. -/
theorem tryLocation_validation :
    (∀ e, tryLocation (.error e) = .error e) ∧
    ∀ body : DeviceDescription,
      (tryLocation (.ok body) =
          .ok { ID := body.serialNumber, IP := body.URLBase } ↔
        (body.URLBase ≠ "" ∧
          (goContains body.modelDescription "Philips hue" = true ∨
           goContains body.modelName "Philips hue" = true))) ∧
      (tryLocation (.ok body) = .error .notFound ↔
        ¬(body.URLBase ≠ "" ∧
          (goContains body.modelDescription "Philips hue" = true ∨
           goContains body.modelName "Philips hue" = true))) := by
  refine ⟨fun e => rfl, fun body => ?_⟩
  by_cases hU : body.URLBase = ""
  · simp [tryLocation, hU]
  · cases hD : goContains body.modelDescription "Philips hue" <;>
      cases hN : goContains body.modelName "Philips hue" <;>
      simp [tryLocation, hU, hD, hN]

/-- C5: on a decoded remote-discovery array, `discoverRemote` returns
`ErrNotFound` for the empty array, and for a non-empty array returns the
first element with its address rewritten to `"http://" ++ ip ++ "/"`,
ignoring every later element. -/
theorem discoverRemote_first_element :
    discoverRemote (.ok (.ok [])) = .returns (.error .notFound) ∧
    ∀ (b : bridgeID) (rest : List bridgeID),
      discoverRemote (.ok (.ok (b :: rest))) =
        .returns (.ok { ID := b.ID, IP := "http://" ++ b.IP ++ "/" }) :=
  ⟨rfl, fun _ _ => rfl⟩

/-- C6: writing any bridge record to the cache and reading it back returns
a bridge equal to it in all three fields. -/
theorem cache_roundtrip (p : Bridge) (file : CacheFile) :
    fromCache true (toCache true true p file) = some p := rfl

/-- C7: `fromCache` never surfaces an error: a home-directory failure, a
missing cache file, any other read failure, and a JSON decode failure all
yield `none`. -/
theorem fromCache_never_errors :
    (∀ file, fromCache false file = none) ∧
    (∀ homedirOK, fromCache homedirOK .missing = none) ∧
    (∀ homedirOK, fromCache homedirOK .readErr = none) ∧
    (∀ homedirOK v, decodeCached v = none →
      fromCache homedirOK (.data v) = none) := by
  refine ⟨fun _ => rfl, fun hOK => ?_, fun hOK => ?_, fun hOK v h => ?_⟩
  · cases hOK <;> rfl
  · cases hOK <;> rfl
  · cases hOK
    · rfl
    · simp [fromCache, h]

/-- Witness for C7 at a concrete corrupt cache value. -/
theorem fromCache_never_errors_witness :
    decodeCached (.str "not an object") = none ∧
    fromCache true (.data (.str "not an object")) = none ∧
    fromCache true .missing = none :=
  ⟨rfl, fromCache_never_errors.2.2.2 true (.str "not an object") rfl,
    fromCache_never_errors.2.1 true⟩

/-- Appending `"/"` to a string adds exactly one to its trailing-slash
count. -/
theorem trailingSlashes_append_slash (s : String) :
    trailingSlashes (s ++ "/") = trailingSlashes s + 1 := by
  have h1 : (s ++ "/").data = s.data ++ ['/'] := String.data_append s "/"
  unfold trailingSlashes
  rw [h1, List.reverse_append]
  simp [List.takeWhile_cons]

/-- C1 counterexample: a device description whose `URLBase` lacks a trailing
slash is accepted by `tryLocation` with the address stored verbatim (zero
trailing slashes), and a remote record whose `internalipaddress` already
ends in a slash comes out of `discoverRemote` with two. -/
theorem address_slash_counterexample :
    tryLocation (.ok ⟨"http://1.2.3.4", "", "Philips hue bridge 2012",
        "00178829da0d"⟩) =
      .ok { ID := "00178829da0d", IP := "http://1.2.3.4" } ∧
    trailingSlashes "http://1.2.3.4" = 0 ∧
    discoverRemote (.ok (.ok [⟨"idA", "1.2.3/"⟩])) =
      .returns (.ok { ID := "idA", IP := "http://1.2.3//" }) ∧
    trailingSlashes "http://1.2.3//" = 2 := by
  exact ⟨rfl, by decide, rfl, by decide⟩

/-- C1 (amended): `tryLocation` stores the XML `URLBase` verbatim, with no
slash normalization, while `discoverRemote` builds the address by
prefixing `"http://"` and appending exactly one `"/"` to the JSON
`internalipaddress` — one more trailing slash than the prefixed source —
so only addresses from the remote path are guaranteed to end in a slash,
and they end in exactly one only when the source value did not end in
one. -/
theorem address_slash_amended :
    (∀ body bid, tryLocation (.ok body) = .ok bid → bid.IP = body.URLBase) ∧
    ∀ (b : bridgeID) (rest : List bridgeID),
      discoverRemote (.ok (.ok (b :: rest))) =
        .returns (.ok { ID := b.ID, IP := "http://" ++ b.IP ++ "/" }) ∧
      trailingSlashes ("http://" ++ b.IP ++ "/") =
        trailingSlashes ("http://" ++ b.IP) + 1 := by
  constructor
  · intro body bid h
    by_cases hU : body.URLBase = ""
    · simp [tryLocation, hU] at h
    · cases hD : goContains body.modelDescription "Philips hue" <;>
        cases hN : goContains body.modelName "Philips hue" <;>
        simp [tryLocation, hU, hD, hN] at h <;> (subst h; rfl)
  · intro b rest
    exact ⟨rfl, trailingSlashes_append_slash _⟩

/-- Witness for the amended C1: the two accepted concrete inputs above,
with the hypotheses discharged by computation. -/
theorem address_slash_amended_witness :
    (bridgeID.mk "00178829da0d" "http://1.2.3.4/").IP = "http://1.2.3.4/" ∧
    (discoverRemote (.ok (.ok [⟨"idB", "1.2.3"⟩])) =
        .returns (.ok { ID := "idB", IP := "http://1.2.3/" }) ∧
      trailingSlashes "http://1.2.3/" = trailingSlashes "http://1.2.3" + 1) :=
  ⟨address_slash_amended.1
      ⟨"http://1.2.3.4/", "", "Philips hue bridge 2012", "00178829da0d"⟩
      ⟨"00178829da0d", "http://1.2.3.4/"⟩ rfl,
    address_slash_amended.2 ⟨"idB", "1.2.3"⟩ []⟩

/-- C2: whenever the cache file holds a decodable record, `Discover`
returns the bridge built from exactly that record and performs no network
operation at all. -/
theorem discover_cache_short_circuit (env : Env) (v : JVal)
    (c : cachedBridge) (hHome : env.homedirOK = true)
    (hFile : env.cache = .data v) (hDec : decodeCached v = some c) :
    Discover env =
      (.returns (.ok { ID := c.ID, IP := c.IP, username := c.Username }),
        ([] : List NetOp)) := by
  simp [Discover, fromCache, hHome, hFile, hDec]

/-- Witness for C2: a concrete cached record is returned as-is, with an
empty network-operation list. -/
theorem discover_cache_short_circuit_witness :
    Discover ⟨true,
        .data (encodeCached ⟨"00178829da0d", "http://1.2.3.4/", "hue-user"⟩),
        [], .error .httpError⟩ =
      (.returns (.ok { ID := "00178829da0d", IP := "http://1.2.3.4/",
                       username := "hue-user" }), []) :=
  discover_cache_short_circuit _ _
    ⟨"00178829da0d", "http://1.2.3.4/", "hue-user"⟩ rfl rfl rfl

/-- C3 (code bug): at the concrete failing input — cache file missing, no
SSDP responder before the deadline, remote HTTP GET failing — the program
crashes inside `discoverRemote` (discover.go line 134 registers
`defer resp.Body.Close()` before checking the GET's error, dereferencing
the nil response) instead of returning `ErrNotFound` as the claim and the
spec's propagation policy require. -/
theorem discover_remote_failure_crashes :
    Discover ⟨true, CacheFile.missing, [], .error .httpError⟩ =
      (.crashes, [NetOp.udpSearch, NetOp.remoteGet]) := rfl

/-- Truncating to at most the string's length yields exactly that many
characters. -/
theorem strTake_length (s : String) (n : Nat) (h : n ≤ s.length) :
    (strTake s n).length = n := by
  have hdata : s.length = s.data.length := rfl
  show (s.data.take n).length = n
  rw [List.length_take]
  omega

/-- C8: `pairAs` truncates an over-long application label to exactly
`maxAppNameLength` characters and an over-long `GOOS-hostname` device
label to exactly `maxDeviceNameLength` characters — labels at or under the
limits pass through unchanged — and sends both in the `devicetype`
value. -/
theorem pairing_truncation (appName goos host : String) :
    (appName.length > maxAppNameLength →
        truncatedAppName appName = strTake appName maxAppNameLength ∧
        (truncatedAppName appName).length = maxAppNameLength) ∧
    (appName.length ≤ maxAppNameLength →
        truncatedAppName appName = appName) ∧
    ((goos ++ "-" ++ host).length > maxDeviceNameLength →
        truncatedDeviceName (goos ++ "-" ++ host) =
          strTake (goos ++ "-" ++ host) maxDeviceNameLength ∧
        (truncatedDeviceName (goos ++ "-" ++ host)).length =
          maxDeviceNameLength) ∧
    ((goos ++ "-" ++ host).length ≤ maxDeviceNameLength →
        truncatedDeviceName (goos ++ "-" ++ host) = goos ++ "-" ++ host) ∧
    devicetype appName goos host =
      truncatedAppName appName ++ "#" ++
        truncatedDeviceName (goos ++ "-" ++ host) := by
  refine ⟨fun h => ?_, fun h => ?_, fun h => ?_, fun h => ?_, rfl⟩
  · rw [truncatedAppName, if_pos h]
    exact ⟨rfl, strTake_length _ _ (by omega)⟩
  · rw [truncatedAppName, if_neg (by omega)]
  · rw [truncatedDeviceName, if_pos h]
    exact ⟨rfl, strTake_length _ _ (by omega)⟩
  · rw [truncatedDeviceName, if_neg (by omega)]

/-- Witness for C8: a 26-character application label and a 25-character
device label, both over their limits, truncated to 20 and 19 characters. -/
theorem pairing_truncation_witness :
    (truncatedAppName "abcdefghijklmnopqrstuvwxyz" =
        strTake "abcdefghijklmnopqrstuvwxyz" maxAppNameLength ∧
      (truncatedAppName "abcdefghijklmnopqrstuvwxyz").length =
        maxAppNameLength) ∧
    (truncatedDeviceName ("linux" ++ "-" ++ "very-long-host-name") =
        strTake ("linux" ++ "-" ++ "very-long-host-name")
          maxDeviceNameLength ∧
      (truncatedDeviceName ("linux" ++ "-" ++ "very-long-host-name")).length =
        maxDeviceNameLength) :=
  ⟨(pairing_truncation "abcdefghijklmnopqrstuvwxyz" "linux"
      "very-long-host-name").1 (by decide),
    (pairing_truncation "abcdefghijklmnopqrstuvwxyz" "linux"
      "very-long-host-name").2.2.1 (by decide)⟩

/-- C9: once the pairing POST has succeeded and its response decoded,
`pairAs` fails with the response echoed exactly when the array is empty or
its first username is empty; otherwise it sets the issued username on the
bridge and writes the bridge to the cache before returning success. -/
theorem pairing_response_handling (b : Bridge) (file : CacheFile)
    (homedirOK writeOK : Bool) (h goos appName : String)
    (call : String → Except DErr (List String)) (resp : List String)
    (hcall : call (devicetype appName goos h) = .ok resp) :
    (resp = [] →
        pairAs b file homedirOK writeOK (.ok h) goos appName call =
          .error (.badResponse resp)) ∧
    (∀ u rest, resp = u :: rest →
        (u = "" →
            pairAs b file homedirOK writeOK (.ok h) goos appName call =
              .error (.badResponse resp)) ∧
        (u ≠ "" →
            pairAs b file homedirOK writeOK (.ok h) goos appName call =
              .ok ({ b with username := u },
                toCache homedirOK writeOK { b with username := u } file))) := by
  constructor
  · intro he
    subst he
    simp [pairAs, hcall]
  · intro u rest he
    subst he
    constructor
    · intro hu
      subst hu
      simp [pairAs, hcall]
    · intro hu
      simp [pairAs, hcall, hu]

/-- Witness for C9: a concrete successful pairing issues the username and
persists the updated record in the cache file. -/
theorem pairing_response_handling_witness :
    pairAs { ID := "00178829da0d", IP := "http://1.2.3.4/", username := "" }
        CacheFile.missing true true (.ok "host") "linux" "gbbr/hue"
        pairCallStub =
      .ok ({ ID := "00178829da0d", IP := "http://1.2.3.4/",
             username := "new-user-token" },
        .data (encodeCached
          ⟨"00178829da0d", "http://1.2.3.4/", "new-user-token"⟩)) :=
  ((pairing_response_handling
      { ID := "00178829da0d", IP := "http://1.2.3.4/", username := "" }
      CacheFile.missing true true "host" "linux" "gbbr/hue"
      pairCallStub ["new-user-token"] rfl).2
    "new-user-token" [] rfl).2 (by decide)

/-- A field with a key other than `key` does not affect the lookup of
`key`, whether present or omitted. -/
theorem lookupField_jsonField_ne (p : Prop) [Decidable p] (k : String)
    (v : JVal) (rest : List (String × JVal)) (key : String) (h : k ≠ key) :
    lookupField (jsonField p k v ++ rest) key = lookupField rest key := by
  by_cases hp : p <;> simp [jsonField, hp, lookupField, h]

/-- An optional-pair field with a key other than `key` does not affect the
lookup of `key`. -/
theorem lookupField_jsonOptPair_ne (k : String) (o : Option (ℚ × ℚ))
    (rest : List (String × JVal)) (key : String) (h : k ≠ key) :
    lookupField (jsonOptPair k o ++ rest) key = lookupField rest key := by
  cases o with
  | none => simp [jsonOptPair]
  | some xy =>
    rcases xy with ⟨x, y⟩
    simp [jsonOptPair, lookupField, h]

/-- A trailing optional-pair field with a key other than `key` yields
nothing for `key`. -/
theorem lookupField_jsonOptPair_ne_nil (k : String) (o : Option (ℚ × ℚ))
    (key : String) (h : k ≠ key) :
    lookupField (jsonOptPair k o) key = none := by
  cases o with
  | none => simp [jsonOptPair, lookupField]
  | some xy =>
    rcases xy with ⟨x, y⟩
    simp [jsonOptPair, lookupField, h]

/-- Looking up the key of the leading field finds it unless omitted. -/
theorem lookupField_jsonField_self (p : Prop) [Decidable p] (k : String)
    (v : JVal) (rest : List (String × JVal)) :
    lookupField (jsonField p k v ++ rest) k =
      if p then lookupField rest k else some v := by
  by_cases hp : p <;> simp [jsonField, hp, lookupField]

/-- The `"on"` entry of a marshalled `State`: present (as `true`) exactly
when `On` is true. -/
theorem setBody_lookup_on (s : State) :
    lookupField (setBody s) "on" =
      if s.On = false then none else some (.jbool s.On) := by
  unfold setBody
  simp only [List.append_assoc]
  rw [lookupField_jsonField_self,
    lookupField_jsonField_ne _ _ _ _ _ (by decide),
    lookupField_jsonField_ne _ _ _ _ _ (by decide),
    lookupField_jsonField_ne _ _ _ _ _ (by decide),
    lookupField_jsonOptPair_ne _ _ _ _ (by decide),
    lookupField_jsonField_ne _ _ _ _ _ (by decide),
    lookupField_jsonField_ne _ _ _ _ _ (by decide),
    lookupField_jsonField_ne _ _ _ _ _ (by decide),
    lookupField_jsonField_ne _ _ _ _ _ (by decide),
    lookupField_jsonField_ne _ _ _ _ _ (by decide),
    lookupField_jsonField_ne _ _ _ _ _ (by decide),
    lookupField_jsonField_ne _ _ _ _ _ (by decide),
    lookupField_jsonField_ne _ _ _ _ _ (by decide),
    lookupField_jsonOptPair_ne_nil _ _ _ (by decide)]

/-- C10: the body `Light.Set` marshals for a `State` with `On = false` has
no `"on"` field at all (it is `omitempty`), and for no `State` does it
contain `"on": false` — the only body carrying `"on": false` is the
explicit map sent by `Light.Off`. -/
theorem set_body_on_field (s : State) :
    (s.On = false → lookupField (setBody s) "on" = none) ∧
    lookupField (setBody s) "on" ≠ some (.jbool false) ∧
    lookupField offBody "on" = some (.jbool false) := by
  refine ⟨fun h => ?_, ?_, rfl⟩
  · rw [setBody_lookup_on, if_pos h]
  · rw [setBody_lookup_on]
    cases hOn : s.On
    · simp
    · simp [hOn]

/-- Witness for C10: a `State` that is off but sets a brightness marshals
to a body without any `"on"` field, while `Light.Off`'s body carries
`"on": false`. -/
theorem set_body_on_field_witness :
    lookupField
        (setBody ⟨false, 42, 0, 0, none, 0, "", "", 0, 0, 0, 0, 0, none⟩)
        "on" = none ∧
    lookupField offBody "on" = some (.jbool false) :=
  ⟨(set_body_on_field
      ⟨false, 42, 0, 0, none, 0, "", "", 0, 0, 0, 0, 0, none⟩).1 rfl,
    (set_body_on_field
      ⟨false, 42, 0, 0, none, 0, "", "", 0, 0, 0, 0, 0, none⟩).2.2⟩

end Hue
